import Mathlib

/-!
Shallow embedding of the SoftJS software renderer core
(`src/Renderer.ts` and the math module) in Lean 4.

JavaScript numbers are embedded as elements of an arbitrary linear ordered
field `K` with a floor structure (instantiated at `ℚ` for concrete
evaluations and at `ℝ` where the source uses transcendental functions).
`Math.sqrt`-based helpers take the square-root function as an explicit
parameter so that the rest of the pipeline stays computable; at `ℝ` it is
instantiated with `Real.sqrt`.

The `Float32Array` depth buffer is embedded as a total function
`ℤ → WithTop K`, where `⊤` models the `+Infinity` fill of `clearZ`.
Reads at indices outside `[0, width*height)` yield `undefined` in
JavaScript, and `z >= undefined` is `false` while stores to such indices
are silently ignored; `depthTest` reproduces exactly that behaviour.

The packed RGBA framebuffer writes of `setPixel` are embedded as an
append-only log of `(x, y, r, g, b, a)` records (after the `| 0`
truncation the source applies); the claims under study are about which
pixels are written and with which colour components, never about the
32-bit packing or endianness, so the packing step is not modelled.
-/

namespace SoftJS

/-- 3-component vector, mirroring `type Vec3 = { x, y, z }`. -/
structure Vec3 (K : Type) where
  x : K
  y : K
  z : K
  deriving DecidableEq

/-- 4-component vector, mirroring `type Vec4 = { x, y, z, w }`. -/
structure Vec4 (K : Type) where
  x : K
  y : K
  z : K
  w : K
  deriving DecidableEq

/-- Row-major 4×4 matrix, mirroring `type Mat4 = number[]` (length 16);
field `mI` is the flat entry `m[I]` of the source array. -/
structure Mat4 (K : Type) where
  m0 : K
  m1 : K
  m2 : K
  m3 : K
  m4 : K
  m5 : K
  m6 : K
  m7 : K
  m8 : K
  m9 : K
  m10 : K
  m11 : K
  m12 : K
  m13 : K
  m14 : K
  m15 : K
  deriving DecidableEq

/-- `ScreenVertex` record from the math module: screen x/y, depth z,
reciprocal clip-w, and the optional `color` / `normal` / `uv` fields. -/
structure ScreenVertex (K : Type) where
  x : K
  y : K
  z : K
  recipW : K
  color : Option (K × K × K) := none
  normal : Option (Vec3 K) := none
  uv : Option (K × K) := none
  deriving DecidableEq

/-- `DirectionalLight` object: direction, RGB colour, scalar intensity. -/
structure DirectionalLight (K : Type) where
  direction : Vec3 K
  color : Vec3 K
  intensity : K

/-- `options.shading` values of `RendererOptions`. -/
inductive ShadingMode where
  | flat
  | blinnPhong
  | wireframe
  deriving DecidableEq

/-- `RendererOptions`: `shading?` (absent = `none`) and `snapVertices?`
(absent behaves as `false`). -/
structure RendererOptions where
  shading : Option ShadingMode := none
  snapVertices : Bool := false

/-- One logged framebuffer write `(x, y, r, g, b, a)` with the colour
components already truncated by `| 0` as in `setPixel`. -/
structure PixelWrite where
  x : ℤ
  y : ℤ
  r : ℤ
  g : ℤ
  b : ℤ
  a : ℤ
  deriving DecidableEq

/-- Mutable renderer state touched by rasterization: `zBuffer` (flat
`Float32Array` of length width*height, as a total function on flat
indices) and the chronological log of `setPixel` writes. -/
structure RState (K : Type) where
  zb : ℤ → WithTop K
  writes : List PixelWrite

section Defs

variable {K : Type} [LinearOrderedField K] [FloorRing K]

/-- JavaScript `ToInteger`-style truncation toward zero of a number. -/
def jsTrunc (k : K) : ℤ :=
  if 0 ≤ k then ⌊k⌋ else ⌈k⌉

/-- Wrap an integer into the signed 32-bit range, as JavaScript `ToInt32`. -/
def int32wrap (n : ℤ) : ℤ :=
  (n + 2 ^ 31).emod (2 ^ 32) - 2 ^ 31

/-- JavaScript `k | 0`: `ToInt32` of a number. -/
def jsToInt32 (k : K) : ℤ :=
  int32wrap (jsTrunc k)

/-- JavaScript `k << 16` on a number: `ToInt32`, shift, wrap to int32. -/
def jsShl16 (k : K) : ℤ :=
  int32wrap (jsToInt32 k * 65536)

/-- JavaScript `k >> 16` on a number: `ToInt32` then arithmetic right
shift, i.e. flooring division by `2^16`. -/
def jsShr16 (k : K) : ℤ :=
  Int.fdiv (jsToInt32 k) 65536

/-- JavaScript `k & 0xFFFF` on a number: `ToInt32` then low 16 bits. -/
def jsAnd16 (k : K) : ℤ :=
  (jsToInt32 k).emod 65536

/-- JavaScript `Math.round`: round half toward positive infinity. -/
def jsRound (k : K) : ℤ :=
  ⌊k + 1 / 2⌋

/-- JavaScript array read `l[n]`, with `0` standing in for the
`undefined` of an out-of-range access (never exercised by the claims,
which assume the mesh invariant that all indices are in range). -/
def getF (l : List K) (n : ℕ) : K :=
  (l.get? n).getD 0

/-- Integer range `[a, b]` traversed by a `for (let i = a; i <= b; i++)`
loop; empty when `b < a`. -/
def intRange (a b : ℤ) : List ℤ :=
  (List.range (b - a + 1).toNat).map fun k => a + k

/-- `mat4MulVec4(m, v)` from the math module (row-major). -/
def mat4MulVec4 (m : Mat4 K) (v : Vec4 K) : Vec4 K :=
  { x := m.m0 * v.x + m.m1 * v.y + m.m2 * v.z + m.m3 * v.w
    y := m.m4 * v.x + m.m5 * v.y + m.m6 * v.z + m.m7 * v.w
    z := m.m8 * v.x + m.m9 * v.y + m.m10 * v.z + m.m11 * v.w
    w := m.m12 * v.x + m.m13 * v.y + m.m14 * v.z + m.m15 * v.w }

/-- `mat4Identity()` from the math module. -/
def mat4Identity : Mat4 K :=
  ⟨1, 0, 0, 0, 0, 1, 0, 0, 0, 0, 1, 0, 0, 0, 0, 1⟩

/-- `vsub(a, b)`. -/
def vsub (a b : Vec3 K) : Vec3 K :=
  ⟨a.x - b.x, a.y - b.y, a.z - b.z⟩

/-- `vcross(a, b)`. -/
def vcross (a b : Vec3 K) : Vec3 K :=
  ⟨a.y * b.z - a.z * b.y, a.z * b.x - a.x * b.z, a.x * b.y - a.y * b.x⟩

/-- `vdot(a, b)`. -/
def vdot (a b : Vec3 K) : K :=
  a.x * b.x + a.y * b.y + a.z * b.z

/-- `vlen(a) = Math.hypot(a.x, a.y, a.z) || 1`: the square-root function
is a parameter (instantiated with `Real.sqrt` at `K := ℝ`); `Math.hypot`
of real inputs is `sqrt (x² + y² + z²)` and the `|| 1` guard replaces a
zero length by `1`. -/
def vlen (sqrt : K → K) (a : Vec3 K) : K :=
  let L := sqrt (a.x * a.x + a.y * a.y + a.z * a.z)
  if L = 0 then 1 else L

/-- `vnorm(a)`: divide each component by `vlen(a)`. -/
def vnorm (sqrt : K → K) (a : Vec3 K) : Vec3 K :=
  let L := vlen sqrt a
  ⟨a.x / L, a.y / L, a.z / L⟩

end Defs

/-- Result record of `projectVertex`: screen coordinates, normalized
device coordinates and the clip-space w. -/
structure Projected (K : Type) where
  screenX : K
  screenY : K
  screenZ : K
  ndc : Vec3 K
  clipW : K
  deriving DecidableEq

section Defs2

variable {K : Type} [LinearOrderedField K] [FloorRing K]

/-- `projectVertex(pos, mvp, width, height)`: clip-space transform,
`null` when `clip.w === 0`, otherwise perspective divide and the
NDC-to-screen mapping (with the Y flip for canvas coordinates). -/
def projectVertex (pos : Vec3 K) (mvp : Mat4 K) (width height : K) :
    Option (Projected K) :=
  let clip := mat4MulVec4 mvp ⟨pos.x, pos.y, pos.z, 1⟩
  if clip.w = 0 then none
  else
    let ndc : Vec3 K := ⟨clip.x / clip.w, clip.y / clip.w, clip.z / clip.w⟩
    some
      { screenX := (ndc.x * (1 / 2) + 1 / 2) * width
        screenY := (1 - (ndc.y * (1 / 2) + 1 / 2)) * height
        screenZ := ndc.z * (1 / 2) + 1 / 2
        ndc := ndc
        clipW := clip.w }

/-- `transformTriangleToScreen(a, b, c, mvp, width, height)`: three
projections; `null` when any of them is `null`, otherwise the three
`ScreenVertex` records (optional attribute fields absent). -/
def transformTriangleToScreen (a b c : Vec3 K) (mvp : Mat4 K)
    (width height : K) :
    Option (ScreenVertex K × ScreenVertex K × ScreenVertex K) :=
  match projectVertex a mvp width height, projectVertex b mvp width height,
      projectVertex c mvp width height with
  | some pa, some pb, some pc =>
      some
        (⟨pa.screenX, pa.screenY, pa.screenZ, 1 / pa.clipW, none, none, none⟩,
         ⟨pb.screenX, pb.screenY, pb.screenZ, 1 / pb.clipW, none, none, none⟩,
         ⟨pc.screenX, pc.screenY, pc.screenZ, 1 / pc.clipW, none, none, none⟩)
  | _, _, _ => none

/-- The `outOfBounds` test of `isTriangleClipped`:
`v.x < 0 || v.x >= width || v.y < 0 || v.y >= height`. -/
def outOfBounds (v : ScreenVertex K) (width height : K) : Bool :=
  decide (v.x < 0) || decide (width ≤ v.x) || decide (v.y < 0) ||
    decide (height ≤ v.y)

/-- `isTriangleClipped(v0, v1, v2, width, height)`: true exactly when all
three vertices are out of the screen bounds. -/
def isTriangleClipped (v0 v1 v2 : ScreenVertex K) (width height : K) : Bool :=
  outOfBounds v0 width height && outOfBounds v1 width height &&
    outOfBounds v2 width height

/-- `snapVertexToGrid(svert, gridSize)`: round screen x and y to the
grid with `Math.round`, keep z / recipW / normal / uv, drop `color`. -/
def snapVertexToGrid (svert : ScreenVertex K) (gridSize : K) :
    ScreenVertex K :=
  { x := (jsRound (svert.x / gridSize) : ℤ) * gridSize
    y := (jsRound (svert.y / gridSize) : ℤ) * gridSize
    z := svert.z
    recipW := svert.recipW
    color := none
    normal := svert.normal
    uv := svert.uv }

/-- `getScreenVertex(svert, vi, uvIdx, normals, uvs)`: copy the screen
data and attach the per-vertex normal / uv when the corresponding array
is present and long enough; `color` is set to `undefined`. -/
def getScreenVertex (svert : ScreenVertex K) (vi uvIdx : ℕ)
    (normals : Option (List K)) (uvs : Option (List K)) : ScreenVertex K :=
  let normal : Option (Vec3 K) :=
    match normals with
    | some ns =>
        if vi + 2 < ns.length then
          some ⟨getF ns vi, getF ns (vi + 1), getF ns (vi + 2)⟩
        else none
    | none => none
  let uv : Option (K × K) :=
    match uvs with
    | some us =>
        if uvIdx + 1 < us.length then some (getF us uvIdx, getF us (uvIdx + 1))
        else none
    | none => none
  { x := svert.x
    y := svert.y
    z := svert.z
    recipW := svert.recipW
    color := none
    normal := normal
    uv := uv }

/-- `computeBlinnPhongLighting(vertex, normal, viewDir, light)`: ambient
0.15, diffuse from the normalized normal against the negated normalized
light direction, Blinn-Phong specular with shininess 16, all applied to
the fixed base colour (200, 120, 60) and clamped to [0, 255].  The
`if (light)` null guard of the source is always taken here since the
embedded light is a plain record. -/
def computeBlinnPhongLighting (sqrt : K → K) (vertex : Vec3 K)
    (normal : Vec3 K) (viewDir : Vec3 K) (light : DirectionalLight K) :
    Vec3 K :=
  let ambient : K := 15 / 100
  let ldir := vnorm sqrt light.direction
  let toLight : Vec3 K := ⟨-ldir.x, -ldir.y, -ldir.z⟩
  let normalizedNormal := vnorm sqrt normal
  let diffuseIntensity := max 0 (vdot normalizedNormal toLight) * light.intensity
  let halfwayDir := vnorm sqrt
    ⟨viewDir.x + toLight.x, viewDir.y + toLight.y, viewDir.z + toLight.z⟩
  let specAngle := max 0 (vdot normalizedNormal halfwayDir)
  let specularIntensity := specAngle ^ (16 : ℕ) * light.intensity
  let baseColor : Vec3 K := ⟨200, 120, 60⟩
  let diff := 1 - ambient
  let shade := ambient + diff * diffuseIntensity + specularIntensity
  ⟨max 0 (min 255 (baseColor.x * shade)),
   max 0 (min 255 (baseColor.y * shade)),
   max 0 (min 255 (baseColor.z * shade))⟩

/-- `clearZ()`: fill every depth cell with `+Infinity`. -/
def clearZ : ℤ → WithTop K := fun _ => ⊤

/-- `depthTest(x, y, z)` of the `Renderer`, acting on a buffer of
`width * height` cells.  The flat index `y * width + x` is formed with no
bounds check; for an index inside the typed array the comparison and
conditional store happen as written, while for an index outside it the
JavaScript read yields `undefined`, the comparison `z >= undefined` is
`false` (so the function returns `true`) and the store is silently
dropped.  Called with integer pixel coordinates by both callers. -/
def depthTest (width height : ℤ) (zb : ℤ → WithTop K) (x y : ℤ) (z : K) :
    Bool × (ℤ → WithTop K) :=
  let idx := y * width + x
  if 0 ≤ idx ∧ idx < width * height then
    if (z : WithTop K) < zb idx then
      (true, fun j => if j = idx then (z : WithTop K) else zb j)
    else (false, zb)
  else (true, zb)

/-- `setPixel(x, y, r, g, b, a)`: bounds-checked (out of range silently
ignored); logs the write with components truncated by `| 0`. -/
def setPixel (width height : ℤ) (st : RState K) (x y : ℤ)
    (r g b a : K) : RState K :=
  if x < 0 ∨ width ≤ x ∨ y < 0 ∨ height ≤ y then st
  else
    { st with
      writes := st.writes ++
        [⟨x, y, jsToInt32 r, jsToInt32 g, jsToInt32 b, jsToInt32 a⟩] }

/-- The stable ascending-y sort `[v0, v1, v2].sort((v1, v2) => v1.y - v2.y)`
performed at the top of `drawTriangleScanline` (JavaScript sort is
stable, so ties keep the original relative order). -/
def sort3 (v0 v1 v2 : ScreenVertex K) :
    ScreenVertex K × ScreenVertex K × ScreenVertex K :=
  if v0.y ≤ v1.y then
    if v1.y ≤ v2.y then (v0, v1, v2)
    else if v0.y ≤ v2.y then (v0, v2, v1)
    else (v2, v0, v1)
  else
    if v0.y ≤ v2.y then (v1, v0, v2)
    else if v1.y ≤ v2.y then (v1, v2, v0)
    else (v2, v1, v0)

/-- `interpolateEdge(edge, y)` for the precomputed edge from `s` to `e`:
`s.x` when the edge is horizontal, otherwise linear interpolation. -/
def interpolateEdge (s e : ScreenVertex K) (y : K) : K :=
  if e.y - s.y = 0 then s.x
  else s.x + (e.x - s.x) * ((y - s.y) / (e.y - s.y))

/-- `interpolateZ(edgeAC, edgeAB, edgeBC, x, y, t)`: the shipped helper
only uses the long edge `a → c` and the span parameter `t`. -/
def interpolateZ (a c : ScreenVertex K) (t : K) : K :=
  a.z + (c.z - a.z) * t

/-- One iteration of the inner pixel loop of `drawTriangleScanline`:
compute `t` and `z`, run `depthTest`, and `setPixel` on a pass. -/
def scanPixel (width height : ℤ) (a c : ScreenVertex K) (color : Vec3 K)
    (y : ℤ) (x1 x2 : K) (st : RState K) (x : ℤ) : RState K :=
  let t := if x2 = x1 then 0 else ((x : K) - x1) / (x2 - x1)
  let z := interpolateZ a c t
  let res := depthTest width height st.zb x y z
  let st1 : RState K := { st with zb := res.2 }
  if res.1 then setPixel width height st1 x y color.x color.y color.z 255
  else st1

/-- One scanline row of `drawTriangleScanline`: x-intersections with the
long edge and the active short edge, left/right swap, clamp to
`[0, width)`, then the pixel loop. -/
def scanRow (width height : ℤ) (a b c : ScreenVertex K) (color : Vec3 K)
    (st : RState K) (y : ℤ) : RState K :=
  let x1 := interpolateEdge a c (y : K)
  let x2 :=
    if (y : K) < b.y then interpolateEdge a b (y : K)
    else interpolateEdge b c (y : K)
  let lr := if x1 > x2 then (x2, x1) else (x1, x2)
  let startX := max 0 ⌈lr.1⌉
  let endX := min (width - 1) ⌊lr.2⌋
  (intRange startX endX).foldl (scanPixel width height a c color y lr.1 lr.2) st

/-- `drawTriangleScanline(v0, v1, v2, color)`: stable y-sort, vertical
extent clamped to `[0, height)`, then one `scanRow` per covered row.  The
`color` argument defaults to `(200, 120, 60)` in the source. -/
def drawTriangleScanline (width height : ℤ) (st : RState K)
    (v0 v1 v2 : ScreenVertex K) (color : Vec3 K) : RState K :=
  let s := sort3 v0 v1 v2
  let a := s.1
  let b := s.2.1
  let c := s.2.2
  let minY := max 0 ⌈min a.y (min b.y c.y)⌉
  let maxY := min (height - 1) ⌊max a.y (max b.y c.y)⌋
  (intRange minY maxY).foldl (scanRow width height a b c color) st

/-- `renderFlatShading(sv0, sv1, sv2, e1, e2)`: one face colour from the
world-space edge vectors and the directional light, then the scanline
fill with that colour. -/
def renderFlatShading (sqrt : K → K) (width height : ℤ)
    (light : DirectionalLight K) (st : RState K)
    (sv0 sv1 sv2 : ScreenVertex K) (e1 e2 : Vec3 K) : RState K :=
  let ambient : K := 15 / 100
  let ldir := vnorm sqrt light.direction
  let base : Vec3 K := ⟨200, 120, 60⟩
  let diff := 1 - ambient
  let faceNormal := vnorm sqrt (vcross e1 e2)
  let lightIntensity :=
    max 0 (vdot faceNormal ⟨-ldir.x, -ldir.y, -ldir.z⟩) * light.intensity
  let finalColor : Vec3 K :=
    ⟨max 0 (min 255 (base.x * (ambient + diff * lightIntensity))),
     max 0 (min 255 (base.y * (ambient + diff * lightIntensity))),
     max 0 (min 255 (base.z * (ambient + diff * lightIntensity)))⟩
  drawTriangleScanline width height st sv0 sv1 sv2 finalColor

/-- `renderBlinnPhongShading(sv0, sv1, sv2, v0, v1, v2, normals)`:
per-vertex Blinn-Phong colours (from `normals[0..8]` and the view
direction derived from the negated camera position) are attached to the
`color` fields of the three screen vertices, then `drawTriangleScanline`
is invoked with its default colour argument `(200, 120, 60)`. -/
def renderBlinnPhongShading (sqrt : K → K) (width height : ℤ)
    (cameraPos : Vec3 K) (light : DirectionalLight K) (st : RState K)
    (sv0 sv1 sv2 : ScreenVertex K) (v0 v1 v2 : Vec3 K)
    (normals : List K) : RState K :=
  let viewDir := vnorm sqrt ⟨-cameraPos.x, -cameraPos.y, -cameraPos.z⟩
  let c0 := computeBlinnPhongLighting sqrt v0
    ⟨getF normals 0, getF normals 1, getF normals 2⟩ viewDir light
  let c1 := computeBlinnPhongLighting sqrt v1
    ⟨getF normals 3, getF normals 4, getF normals 5⟩ viewDir light
  let c2 := computeBlinnPhongLighting sqrt v2
    ⟨getF normals 6, getF normals 7, getF normals 8⟩ viewDir light
  let sv0c : ScreenVertex K := { sv0 with color := some (c0.x, c0.y, c0.z) }
  let sv1c : ScreenVertex K := { sv1 with color := some (c1.x, c1.y, c1.z) }
  let sv2c : ScreenVertex K := { sv2 with color := some (c2.x, c2.y, c2.z) }
  drawTriangleScanline width height st sv0c sv1c sv2c ⟨200, 120, 60⟩

/-- The signed screen-space area test value of `renderTriangle`:
`(bx - ax) * (cy - ay) - (by - ay) * (cx - ax)`. -/
def area2 (a b c : ScreenVertex K) : K :=
  (b.x - a.x) * (c.y - a.y) - (b.y - a.y) * (c.x - a.x)

/-- The shading-mode dispatch at the end of `renderTriangle`: flat and
Blinn-Phong render; wireframe is an unimplemented TODO (nothing drawn),
and an absent `shading` option falls through all branches. -/
def shadeDispatch (sqrt : K → K) (width height : ℤ)
    (opts : RendererOptions) (cameraPos : Vec3 K)
    (light : DirectionalLight K) (st : RState K)
    (sv0 sv1 sv2 : ScreenVertex K) (v0 v1 v2 : Vec3 K) (e1 e2 : Vec3 K)
    (normals : List K) : RState K :=
  match opts.shading with
  | some ShadingMode.flat =>
      renderFlatShading sqrt width height light st sv0 sv1 sv2 e1 e2
  | some ShadingMode.blinnPhong =>
      renderBlinnPhongShading sqrt width height cameraPos light st
        sv0 sv1 sv2 v0 v1 v2 normals
  | some ShadingMode.wireframe => st
  | none => st

/-- The optional vertex snapping block of `renderTriangle`: when
`options.snapVertices` is set, all three screen vertices are replaced by
their grid-snapped versions (grid pitch 5); otherwise they are kept. -/
def snappedVerts (opts : RendererOptions) (s0 s1 s2 : ScreenVertex K) :
    ScreenVertex K × ScreenVertex K × ScreenVertex K :=
  if opts.snapVertices then
    (snapVertexToGrid s0 5, snapVertexToGrid s1 5, snapVertexToGrid s2 5)
  else (s0, s1, s2)

/-- The tail of `renderTriangle` after the clip and cull tests passed:
world-space edge vectors from `modelMat`, attribute gathering via
`getScreenVertex` on the (possibly snapped) screen vertices `t0 t1 t2`,
then the shading dispatch. -/
def shadeTriangle (sqrt : K → K) (width height : ℤ)
    (opts : RendererOptions) (cameraPos : Vec3 K)
    (light : DirectionalLight K) (idxList : List ℕ) (i : ℕ)
    (normals : List K) (uvs : Option (List K)) (modelMat : Mat4 K)
    (v0 v1 v2 : Vec3 K) (t0 t1 t2 : ScreenVertex K) (st : RState K) :
    RState K :=
  let p0w := mat4MulVec4 modelMat ⟨v0.x, v0.y, v0.z, 1⟩
  let p1w := mat4MulVec4 modelMat ⟨v1.x, v1.y, v1.z, 1⟩
  let p2w := mat4MulVec4 modelMat ⟨v2.x, v2.y, v2.z, 1⟩
  let e1 := vsub ⟨p1w.x, p1w.y, p1w.z⟩ ⟨p0w.x, p0w.y, p0w.z⟩
  let e2 := vsub ⟨p2w.x, p2w.y, p2w.z⟩ ⟨p0w.x, p0w.y, p0w.z⟩
  let sv0 := getScreenVertex t0 (idxList.getD i 0 * 3)
    (idxList.getD i 0 * 2) (some normals) uvs
  let sv1 := getScreenVertex t1 (idxList.getD (i + 1) 0 * 3)
    (idxList.getD (i + 1) 0 * 2) (some normals) uvs
  let sv2 := getScreenVertex t2 (idxList.getD (i + 2) 0 * 3)
    (idxList.getD (i + 2) 0 * 2) (some normals) uvs
  shadeDispatch sqrt width height opts cameraPos light st sv0 sv1 sv2
    v0 v1 v2 e1 e2 normals

/-- The part of `renderTriangle` after `transformTriangleToScreen`
succeeded: optional grid snapping (grid pitch 5), full-offscreen
rejection, back-face culling on `area2 > 0`, then `shadeTriangle`. -/
def renderTriangleSV (sqrt : K → K) (width height : ℤ)
    (opts : RendererOptions) (cameraPos : Vec3 K)
    (light : DirectionalLight K) (idxList : List ℕ) (i : ℕ)
    (normals : List K) (uvs : Option (List K)) (modelMat : Mat4 K)
    (v0 v1 v2 : Vec3 K) (s0 s1 s2 : ScreenVertex K) (st : RState K) :
    RState K :=
  let t := snappedVerts opts s0 s1 s2
  if isTriangleClipped t.1 t.2.1 t.2.2 (width : K) (height : K) then st
  else if 0 < area2 t.1 t.2.1 t.2.2 then st
  else
    shadeTriangle sqrt width height opts cameraPos light idxList i normals
      uvs modelMat v0 v1 v2 t.1 t.2.1 t.2.2 st

/-- The vertex gather `pos[idx[i + j] * 3 ..]` at the top of
`renderTriangle`. -/
def gatherVertex (idxList : List ℕ) (pos : List K) (j : ℕ) : Vec3 K :=
  let vi := idxList.getD j 0 * 3
  ⟨getF pos vi, getF pos (vi + 1), getF pos (vi + 2)⟩

/-- `renderTriangle(idx, i, pos, normals, uvs, mvp, modelMat)`: gather
the three vertex positions, project them; when the projection returns
`null` the triangle is dropped, otherwise continue with
`renderTriangleSV`. -/
def renderTriangle (sqrt : K → K) (width height : ℤ)
    (opts : RendererOptions) (cameraPos : Vec3 K)
    (light : DirectionalLight K) (idxList : List ℕ) (i : ℕ)
    (pos normals : List K) (uvs : Option (List K))
    (mvp modelMat : Mat4 K) (st : RState K) : RState K :=
  let v0 := gatherVertex idxList pos i
  let v1 := gatherVertex idxList pos (i + 1)
  let v2 := gatherVertex idxList pos (i + 2)
  match transformTriangleToScreen v0 v1 v2 mvp (width : K) (height : K) with
  | none => st
  | some s =>
      renderTriangleSV sqrt width height opts cameraPos light idxList i
        normals uvs modelMat v0 v1 v2 s.1 s.2.1 s.2.2 st

/-- Loop state of `drawLine3DEFLA`: current point, the two fixed-point
accumulators and the renderer state. -/
structure LineState (K : Type) where
  x0 : ℤ
  y0 : ℤ
  z0 : K
  j1 : K
  j2 : K
  st : RState K

/-- `drawLine3DEFLA(x0, y0, z0, x1, y1, z1, r, g, b, a)`: EFLA line
walk.  Each iteration first runs `depthTest` on the current point (with
no bounds check) and `setPixel` on a pass, then advances along the
dominant axis with `<< 16` fixed-point error accumulators.  The pixel
x/y coordinates are embedded as integers (the integer steps of the
algorithm keep them integral). -/
def drawLine3DEFLA (width height : ℤ) (x0 y0 : ℤ) (z0 : K)
    (x1 y1 : ℤ) (z1 : K) (r g b a : K) (st : RState K) : RState K :=
  let dx := |x1 - x0|
  let dy := |y1 - y0|
  let dz := |z1 - z0|
  let xs : ℤ := if x0 < x1 then 1 else -1
  let ys : ℤ := if y0 < y1 then 1 else -1
  let zs : K := if z0 < z1 then 1 else -1
  let longLen : K := max (max (dx : K) (dy : K)) dz
  let sl :=
    if longLen = (dx : K) then ((dy : K), dz)
    else if longLen = (dy : K) then ((dx : K), dz)
    else ((dx : K), (dy : K))
  let decInc1 : K := if sl.1 = 0 then 0 else ((jsShl16 sl.1 : ℤ) : K) / longLen
  let decInc2 : K := if sl.2 = 0 then 0 else ((jsShl16 sl.2 : ℤ) : K) / longLen
  let step : LineState K → LineState K := fun s =>
    let res := depthTest width height s.st.zb s.x0 s.y0 s.z0
    let st1 : RState K := { s.st with zb := res.2 }
    let st2 := if res.1 then setPixel width height st1 s.x0 s.y0 r g b a else st1
    if longLen = (dx : K) then
      let j1 := s.j1 + decInc1
      let j2 := s.j2 + decInc2
      { x0 := s.x0 + xs
        y0 := s.y0 + jsShr16 j1 * ys
        z0 := s.z0 + ((jsShr16 j2 : ℤ) : K) * zs
        j1 := ((jsAnd16 j1 : ℤ) : K)
        j2 := ((jsAnd16 j2 : ℤ) : K)
        st := st2 }
    else if longLen = (dy : K) then
      let j1 := s.j1 + decInc1
      let j2 := s.j2 + decInc2
      { x0 := s.x0 + jsShr16 j1 * xs
        y0 := s.y0 + ys
        z0 := s.z0 + ((jsShr16 j2 : ℤ) : K) * zs
        j1 := ((jsAnd16 j1 : ℤ) : K)
        j2 := ((jsAnd16 j2 : ℤ) : K)
        st := st2 }
    else
      let j1 := s.j1 + decInc1
      let j2 := s.j2 + decInc2
      { x0 := s.x0 + jsShr16 j1 * xs
        y0 := s.y0 + jsShr16 j2 * ys
        z0 := s.z0 + zs
        j1 := ((jsAnd16 j1 : ℤ) : K)
        j2 := ((jsAnd16 j2 : ℤ) : K)
        st := st2 }
  let count := (⌊longLen⌋ + 1).toNat
  let final := (List.range count).foldl (fun s _ => step s)
    ⟨x0, y0, z0, 0, 0, st⟩
  final.st

end Defs2

/-- `mat4Perspective(fovy, aspect, near, far)` (WebGL style, row-major):
`f = 1 / tan(fovy / 2)`, `nf = 1 / (near - far)`.  Stated over `ℝ`
because of the tangent. -/
noncomputable def mat4Perspective (fovy aspect near far : ℝ) : Mat4 ℝ :=
  let f : ℝ := 1 / Real.tan (fovy / 2)
  let nf : ℝ := 1 / (near - far)
  ⟨f / aspect, 0, 0, 0,
   0, f, 0, 0,
   0, 0, (far + near) * nf, 2 * far * near * nf,
   0, 0, -1, 0⟩

/-! ## Helper lemmas -/

/-- The flat index `y * width + x` is injective on in-bounds pixel
coordinates. -/
theorem flatIndex_inj (width x y x' y' : ℤ) (hx0 : 0 ≤ x) (hxw : x < width)
    (hx'0 : 0 ≤ x') (hx'w : x' < width)
    (h : y' * width + x' = y * width + x) : x' = x ∧ y' = y := by
  have hdiff : (y' - y) * width = x - x' := by ring_nf; linarith
  have hy' : y' = y := by
    by_contra hne
    have h1 : 1 ≤ |y' - y| := by
      rcases lt_or_gt_of_ne (sub_ne_zero.mpr hne) with hlt | hgt
      · rw [abs_of_neg hlt]; omega
      · rw [abs_of_pos hgt]; omega
    have h2 : |x - x'| < width := abs_lt.mpr ⟨by omega, by omega⟩
    have h3 : |(y' - y) * width| = |y' - y| * width := by
      rw [abs_mul, abs_of_nonneg (by omega : (0 : ℤ) ≤ width)]
    have h4 : width ≤ |y' - y| * width :=
      le_mul_of_one_le_left (by omega) h1
    rw [hdiff] at h3
    omega
  subst hy'
  exact ⟨by omega, rfl⟩

section Claims

/-! ## C1: `depthTest` invariant -/

/-- C1.  For every in-bounds pixel `(x, y)` and any depth-buffer state
(in particular any state reachable by a sequence of `depthTest` calls
after `clearZ`, which sets every cell to `+Infinity` — last conjunct),
`depthTest(x, y, z)` returns `true` exactly when `z` is strictly below
the stored depth at `(x, y)`; on `true` the stored depth at `(x, y)`
becomes `z` (strictly smaller than before, so each passing call strictly
decreases, or first sets, that pixel's depth) and every other in-bounds
pixel is untouched; on `false` the depth buffer is completely
unchanged. -/
theorem c1_depthTest_invariant (K : Type) [LinearOrderedField K]
    (width height : ℤ) (zb : ℤ → WithTop K) (x y : ℤ) (z : K)
    (hx0 : 0 ≤ x) (hxw : x < width) (hy0 : 0 ≤ y) (hyh : y < height) :
    ((depthTest width height zb x y z).1 = true ↔
      (z : WithTop K) < zb (y * width + x)) ∧
    ((depthTest width height zb x y z).1 = true →
      (depthTest width height zb x y z).2 (y * width + x) = (z : WithTop K) ∧
      (depthTest width height zb x y z).2 (y * width + x) < zb (y * width + x) ∧
      ∀ x' y' : ℤ, 0 ≤ x' → x' < width → 0 ≤ y' → y' < height →
        (x' ≠ x ∨ y' ≠ y) →
        (depthTest width height zb x y z).2 (y' * width + x') =
          zb (y' * width + x')) ∧
    ((depthTest width height zb x y z).1 = false →
      (depthTest width height zb x y z).2 = zb) ∧
    (∀ i : ℤ, (clearZ : ℤ → WithTop K) i = ⊤) := by
  have hw : 0 < width := lt_of_le_of_lt hx0 hxw
  have hh : 0 < height := lt_of_le_of_lt hy0 hyh
  have hidx0 : 0 ≤ y * width + x := add_nonneg (mul_nonneg hy0 hw.le) hx0
  have hidx1 : y * width + x < width * height := by
    have h1 : y * width + x < (y + 1) * width := by nlinarith
    have h2 : (y + 1) * width ≤ height * width :=
      mul_le_mul_of_nonneg_right (by omega) hw.le
    have h3 : height * width = width * height := mul_comm _ _
    omega
  simp only [depthTest]
  rw [if_pos ⟨hidx0, hidx1⟩]
  by_cases h : (z : WithTop K) < zb (y * width + x)
  · rw [if_pos h]
    refine ⟨by simpa using h, fun _ => ⟨by simp, ?_, ?_⟩, by simp, fun i => rfl⟩
    · simpa using h
    · intro x' y' hx'0 hx'w hy'0 hy'h hne
      have : y' * width + x' ≠ y * width + x := by
        intro heq
        rcases flatIndex_inj width x y x' y' hx0 hxw hx'0 hx'w heq with ⟨he1, he2⟩
        tauto
      simp [this]
  · rw [if_neg h]
    exact ⟨by simpa using h, by simp, fun _ => rfl, fun i => rfl⟩

/-- Witness for C1 at a concrete input: on a `4 × 4` buffer freshly
cleared to `+Infinity`, `depthTest(1, 2, 1/2)` passes. -/
theorem c1_depthTest_invariant_witness :
    (depthTest (K := ℚ) 4 4 clearZ 1 2 (1 / 2)).1 = true :=
  ((c1_depthTest_invariant ℚ 4 4 clearZ 1 2 (1 / 2) (by decide) (by decide)
    (by decide) (by decide)).1).mpr (by decide)

/-! ## C9: `vnorm` on the zero vector -/

/-- C9.  Normalizing the zero vector performs no division by zero —
`vlen` substitutes length `1`, and is in fact strictly positive on every
input — and returns the zero vector unchanged.  (`vnorm` is a total Lean
function of its arguments, so determinism and absence of exceptions are
inherent to the embedding.) -/
theorem c9_vnorm_zero_safe :
    vnorm Real.sqrt ⟨0, 0, 0⟩ = (⟨0, 0, 0⟩ : Vec3 ℝ) ∧
    ∀ a : Vec3 ℝ, 0 < vlen Real.sqrt a := by
  constructor
  · simp [vnorm, vlen]
  · intro a
    unfold vlen
    by_cases h : Real.sqrt (a.x * a.x + a.y * a.y + a.z * a.z) = 0
    · rw [if_pos h]; exact zero_lt_one
    · rw [if_neg h]
      exact lt_of_le_of_ne (Real.sqrt_nonneg _) (Ne.symm h)

/-! ## C8: near/far plane depth mapping -/

/-- C8.  For `0 < near < far`, projecting the view-space near-plane
center `(0, 0, -near)` through `mat4Perspective` yields screen depth `0`,
and projecting the far-plane center `(0, 0, -far)` yields screen depth
`1` (for any field of view, aspect ratio and screen size — the depth row
of the matrix does not involve them). -/
theorem c8_perspective_depth_range (fovy aspect near far width height : ℝ)
    (hnear : 0 < near) (hfar : near < far) :
    (projectVertex ⟨0, 0, -near⟩ (mat4Perspective fovy aspect near far)
      width height).map Projected.screenZ = some 0 ∧
    (projectVertex ⟨0, 0, -far⟩ (mat4Perspective fovy aspect near far)
      width height).map Projected.screenZ = some 1 := by
  have hne : near ≠ 0 := ne_of_gt hnear
  have hfe : far ≠ 0 := ne_of_gt (hnear.trans hfar)
  have hnf : near - far ≠ 0 := sub_ne_zero.mpr (ne_of_lt hfar)
  constructor
  · simp only [projectVertex, mat4MulVec4, mat4Perspective]
    rw [show (0:ℝ) * 0 + 0 * 0 + -1 * -near + 0 * 1 = near from by ring]
    rw [if_neg hne]
    simp only [Option.map_some', Option.some.injEq]
    field_simp
    ring
  · simp only [projectVertex, mat4MulVec4, mat4Perspective]
    rw [show (0:ℝ) * 0 + 0 * 0 + -1 * -far + 0 * 1 = far from by ring]
    rw [if_neg hfe]
    simp only [Option.map_some', Option.some.injEq]
    field_simp
    ring

/-- Witness for C8: `near = 1`, `far = 2`, `fovy = 0`, `aspect = 1` on a
`100 × 100` screen. -/
theorem c8_perspective_depth_range_witness :
    (projectVertex ⟨0, 0, -1⟩ (mat4Perspective 0 1 1 2)
      100 100).map Projected.screenZ = some 0 ∧
    (projectVertex ⟨0, 0, -2⟩ (mat4Perspective 0 1 1 2)
      100 100).map Projected.screenZ = some 1 :=
  c8_perspective_depth_range 0 1 1 2 100 100 zero_lt_one one_lt_two

/-! ## C10: unchecked `depthTest` indexing can corrupt another pixel -/

set_option maxRecDepth 4000 in
unseal Rat.mul Rat.add Rat.sub Rat.inv in
/-- C10.  `depthTest` forms the flat index `y * width + x` with no
coordinate bounds check, so calling it at the out-of-range coordinate
`x = -1` behaves exactly like calling it at the in-bounds pixel
`(width - 1, y - 1)` — comparing against and, on a pass, overwriting that
other pixel's stored depth (first conjunct, for every buffer state).  In
contrast `setPixel` silently ignores `x = -1` (second conjunct).
Consequently `drawLine3DEFLA`, which runs `depthTest` before any bounds
check, corrupts the stored depth of pixel `(3, 0)` (flat index `3`) on a
`4 × 4` buffer when invoked on the fully out-of-range degenerate line at
`(-1, 1)`, while writing no pixel at all (last conjuncts). -/
theorem c10_depthTest_unchecked_aliasing (K : Type) [LinearOrderedField K]
    [FloorRing K] :
    (∀ (width height : ℤ) (zb : ℤ → WithTop K) (y : ℤ) (z : K),
      depthTest width height zb (-1) y z =
        depthTest width height zb (width - 1) (y - 1) z) ∧
    (∀ (width height : ℤ) (st : RState K) (y : ℤ) (r g b a : K),
      setPixel width height st (-1) y r g b a = st) ∧
    (drawLine3DEFLA (K := ℚ) 4 4 (-1) 1 (1 / 2) (-1) 1 (1 / 2)
      255 0 0 255 ⟨clearZ, []⟩).zb 3 = ((1 / 2 : ℚ) : WithTop ℚ) ∧
    (drawLine3DEFLA (K := ℚ) 4 4 (-1) 1 (1 / 2) (-1) 1 (1 / 2)
      255 0 0 255 ⟨clearZ, []⟩).writes = [] := by
  refine ⟨?_, ?_, by decide, by decide⟩
  · intro width height zb y z
    have h : y * width + (-1 : ℤ) = (y - 1) * width + (width - 1) := by ring
    simp only [depthTest]
    rw [h]
  · intro width height st y r g b a
    unfold setPixel
    rw [if_pos (Or.inl (by norm_num))]

/-! ## C4: `projectVertex` contract -/

/-- The increasing affine screen mapping `a ↦ (a/2 + 1/2) * w` carries
`[-1, 1]` onto `[0, w]` (closed on both ends) for `w > 0`. -/
theorem affine_unit_interval {K : Type} [LinearOrderedField K] (w : K)
    (hw : 0 < w) (a : K) :
    a ∈ Set.Icc (-1 : K) 1 ↔ (a * (1 / 2) + 1 / 2) * w ∈ Set.Icc 0 w := by
  simp only [Set.mem_Icc]
  constructor
  · rintro ⟨h1, h2⟩
    constructor <;> nlinarith
  · rintro ⟨h1, h2⟩
    constructor <;> nlinarith

/-- C4 (amended).  `projectVertex` returns `none` exactly when the
clip-space w of `mvp · (pos, 1)` is zero (first conjunct); otherwise it
returns the perspective divide and the affine screen mapping, with NDC
x in `[-1, 1]` carried onto the closed interval `[0, width]`, NDC y
carried, with the top-left flip, onto `[0, height]` (y = -1 ↦ height,
y = 1 ↦ 0), and NDC z in `[-1, 1]` carried onto `[0, 1]` (second
conjunct; the claim's half-open ranges fail at the right endpoints, see
the counterexample).  `transformTriangleToScreen` returns `none` exactly
when at least one of the three projections does (third conjunct), and
such a triangle is dropped by `renderTriangle` without touching the
renderer state (fourth conjunct). -/
theorem c4_projectVertex_contract (K : Type) [LinearOrderedField K]
    [FloorRing K] :
    (∀ (pos : Vec3 K) (mvp : Mat4 K) (width height : K),
      projectVertex pos mvp width height = none ↔
        (mat4MulVec4 mvp ⟨pos.x, pos.y, pos.z, 1⟩).w = 0) ∧
    (∀ (pos : Vec3 K) (mvp : Mat4 K) (width height : K) (p : Projected K),
      projectVertex pos mvp width height = some p →
        p.clipW = (mat4MulVec4 mvp ⟨pos.x, pos.y, pos.z, 1⟩).w ∧
        p.ndc.x = (mat4MulVec4 mvp ⟨pos.x, pos.y, pos.z, 1⟩).x / p.clipW ∧
        p.ndc.y = (mat4MulVec4 mvp ⟨pos.x, pos.y, pos.z, 1⟩).y / p.clipW ∧
        p.ndc.z = (mat4MulVec4 mvp ⟨pos.x, pos.y, pos.z, 1⟩).z / p.clipW ∧
        p.screenX = (p.ndc.x * (1 / 2) + 1 / 2) * width ∧
        p.screenY = (1 - (p.ndc.y * (1 / 2) + 1 / 2)) * height ∧
        p.screenZ = p.ndc.z * (1 / 2) + 1 / 2 ∧
        (0 < width →
          (p.ndc.x ∈ Set.Icc (-1 : K) 1 ↔ p.screenX ∈ Set.Icc 0 width)) ∧
        (0 < height →
          (p.ndc.y ∈ Set.Icc (-1 : K) 1 ↔ p.screenY ∈ Set.Icc 0 height)) ∧
        (p.ndc.z ∈ Set.Icc (-1 : K) 1 ↔ p.screenZ ∈ Set.Icc 0 1)) ∧
    (∀ (a b c : Vec3 K) (mvp : Mat4 K) (width height : K),
      transformTriangleToScreen a b c mvp width height = none ↔
        (projectVertex a mvp width height = none ∨
         projectVertex b mvp width height = none ∨
         projectVertex c mvp width height = none)) ∧
    (∀ (sqrt : K → K) (width height : ℤ) (opts : RendererOptions)
       (cameraPos : Vec3 K) (light : DirectionalLight K) (idxList : List ℕ)
       (i : ℕ) (pos normals : List K) (uvs : Option (List K))
       (mvp modelMat : Mat4 K) (st : RState K),
      transformTriangleToScreen (gatherVertex idxList pos i)
          (gatherVertex idxList pos (i + 1)) (gatherVertex idxList pos (i + 2))
          mvp (width : K) (height : K) = none →
      renderTriangle sqrt width height opts cameraPos light idxList i pos
        normals uvs mvp modelMat st = st) := by
  refine ⟨?_, ?_, ?_, ?_⟩
  · intro pos mvp width height
    by_cases h : (mat4MulVec4 mvp ⟨pos.x, pos.y, pos.z, 1⟩).w = 0 <;>
      simp [projectVertex, h]
  · intro pos mvp width height p hp
    by_cases h : (mat4MulVec4 mvp ⟨pos.x, pos.y, pos.z, 1⟩).w = 0
    · simp [projectVertex, h] at hp
    · simp only [projectVertex, h, if_false, Option.some.injEq] at hp
      subst hp
      refine ⟨rfl, rfl, rfl, rfl, rfl, rfl, rfl, ?_, ?_, ?_⟩
      · intro hw
        exact affine_unit_interval width hw _
      · intro hh
        constructor
        · rintro hy
          have := (affine_unit_interval height hh
            (-((mat4MulVec4 mvp ⟨pos.x, pos.y, pos.z, 1⟩).y /
               (mat4MulVec4 mvp ⟨pos.x, pos.y, pos.z, 1⟩).w))).mp
            (by simpa only [Set.mem_Icc, neg_le, neg_le_neg_iff, neg_neg,
                  and_comm] using hy)
          simpa only [show ∀ t : K, (-t * (1 / 2) + 1 / 2) * height =
            (1 - (t * (1 / 2) + 1 / 2)) * height from fun t => by ring]
            using this
        · rintro hy
          have := (affine_unit_interval height hh
            (-((mat4MulVec4 mvp ⟨pos.x, pos.y, pos.z, 1⟩).y /
               (mat4MulVec4 mvp ⟨pos.x, pos.y, pos.z, 1⟩).w))).mpr
            (by simpa only [show ∀ t : K, (-t * (1 / 2) + 1 / 2) * height =
                  (1 - (t * (1 / 2) + 1 / 2)) * height from fun t => by ring]
                  using hy)
          simp only [Set.mem_Icc] at this ⊢
          exact ⟨by linarith [this.2], by linarith [this.1]⟩
      · simpa using affine_unit_interval (1 : K) one_pos
          ((mat4MulVec4 mvp ⟨pos.x, pos.y, pos.z, 1⟩).z /
           (mat4MulVec4 mvp ⟨pos.x, pos.y, pos.z, 1⟩).w)
  · intro a b c mvp width height
    cases hpa : projectVertex a mvp width height <;>
      cases hpb : projectVertex b mvp width height <;>
        cases hpc : projectVertex c mvp width height <;>
          simp [transformTriangleToScreen, hpa, hpb, hpc]
  · intro sqrt width height opts cameraPos light idxList i pos normals uvs
      mvp modelMat st h
    simp only [renderTriangle]
    rw [h]

/-- Counterexample for C4 as stated: with the identity MVP on a
`100 × 50` screen, the corner NDC point `(1, 1, 1)` (inside `[-1, 1]` on
every axis) projects to screen x `= 100 = width`, which is outside the
claimed half-open range `[0, width)`, and to screen y `= 0`, which is
outside the claimed flipped range `[height, 0)` (that is, `(0, height]`). -/
theorem c4_projectVertex_counterexample :
    projectVertex (K := ℚ) ⟨1, 1, 1⟩ mat4Identity 100 50 =
      some ⟨100, 0, 1, ⟨1, 1, 1⟩, 1⟩ ∧
    (1 : ℚ) ∈ Set.Icc (-1 : ℚ) 1 ∧
    (100 : ℚ) ∉ Set.Ico (0 : ℚ) 100 ∧
    (0 : ℚ) ∉ Set.Ioc (0 : ℚ) 50 := by
  refine ⟨?_, by norm_num, by norm_num, by norm_num⟩
  unfold projectVertex mat4MulVec4 mat4Identity
  norm_num

/-- Witness for C4: a triangle whose projection fails (the zero MVP has
clip-space w identically `0`) is dropped by `renderTriangle` with the
state untouched. -/
theorem c4_projectVertex_contract_witness :
    renderTriangle (K := ℚ) (fun _ => 0) 100 50 ⟨none, false⟩ ⟨0, 0, 0⟩
      ⟨⟨0, 0, 0⟩, ⟨0, 0, 0⟩, 0⟩ [0] 0 [] [] none
      ⟨0, 0, 0, 0, 0, 0, 0, 0, 0, 0, 0, 0, 0, 0, 0, 0⟩
      ⟨0, 0, 0, 0, 0, 0, 0, 0, 0, 0, 0, 0, 0, 0, 0, 0⟩
      ⟨clearZ, []⟩ = ⟨clearZ, []⟩ :=
  (c4_projectVertex_contract ℚ).2.2.2 (fun _ => 0) 100 50 ⟨none, false⟩
    ⟨0, 0, 0⟩ ⟨⟨0, 0, 0⟩, ⟨0, 0, 0⟩, 0⟩ [0] 0 [] [] none
    ⟨0, 0, 0, 0, 0, 0, 0, 0, 0, 0, 0, 0, 0, 0, 0, 0⟩
    ⟨0, 0, 0, 0, 0, 0, 0, 0, 0, 0, 0, 0, 0, 0, 0, 0⟩
    ⟨clearZ, []⟩ (by norm_num [transformTriangleToScreen, projectVertex,
      mat4MulVec4])

/-! ## C5: back-face culling -/

/-- C5.  For every triangle reaching the post-projection stage of
`renderTriangle`, when its (post-snap, if enabled) screen vertices have
signed area `area2 > 0` the triangle is rejected before shading and
rasterization and the renderer state — depth buffer and pixel writes —
is completely untouched (first conjunct); when `area2` is not positive
the back-face test does not remove the triangle: unless it was already
rejected by the full-offscreen test, rendering proceeds to the shading
and rasterization tail `shadeTriangle` (second conjunct). -/
theorem c5_backface_cull (K : Type) [LinearOrderedField K] [FloorRing K]
    (sqrt : K → K) (width height : ℤ) (opts : RendererOptions)
    (cameraPos : Vec3 K) (light : DirectionalLight K) (idxList : List ℕ)
    (i : ℕ) (normals : List K) (uvs : Option (List K)) (modelMat : Mat4 K)
    (v0 v1 v2 : Vec3 K) (s0 s1 s2 : ScreenVertex K) (st : RState K) :
    (0 < area2 (snappedVerts opts s0 s1 s2).1 (snappedVerts opts s0 s1 s2).2.1
        (snappedVerts opts s0 s1 s2).2.2 →
      renderTriangleSV sqrt width height opts cameraPos light idxList i
        normals uvs modelMat v0 v1 v2 s0 s1 s2 st = st) ∧
    (¬ 0 < area2 (snappedVerts opts s0 s1 s2).1 (snappedVerts opts s0 s1 s2).2.1
        (snappedVerts opts s0 s1 s2).2.2 →
      isTriangleClipped (snappedVerts opts s0 s1 s2).1
        (snappedVerts opts s0 s1 s2).2.1 (snappedVerts opts s0 s1 s2).2.2
        (width : K) (height : K) = false →
      renderTriangleSV sqrt width height opts cameraPos light idxList i
        normals uvs modelMat v0 v1 v2 s0 s1 s2 st =
        shadeTriangle sqrt width height opts cameraPos light idxList i
          normals uvs modelMat v0 v1 v2 (snappedVerts opts s0 s1 s2).1
          (snappedVerts opts s0 s1 s2).2.1 (snappedVerts opts s0 s1 s2).2.2
          st) := by
  constructor
  · intro harea
    cases hclip : isTriangleClipped (snappedVerts opts s0 s1 s2).1
        (snappedVerts opts s0 s1 s2).2.1 (snappedVerts opts s0 s1 s2).2.2
        (width : K) (height : K)
    · simp [renderTriangleSV, hclip, harea]
    · simp [renderTriangleSV, hclip]
  · intro harea hclip
    simp only [renderTriangleSV, hclip]
    simp [harea]

/-- Witness for C5: on a `100 × 100` screen with snapping off, the
on-screen triangle `(0,0), (10,0), (0,10)` has `area2 = 100 > 0` and is
culled with the state untouched, while its opposite winding
`(0,0), (0,10), (10,0)` has `area2 = -100` and proceeds to the shading
tail. -/
theorem c5_backface_cull_witness :
    (renderTriangleSV (K := ℚ) (fun _ => 0) 100 100 ⟨some ShadingMode.flat, false⟩
      ⟨0, 0, 0⟩ ⟨⟨0, 0, 0⟩, ⟨0, 0, 0⟩, 0⟩ [0, 1, 2] 0 [] none mat4Identity
      ⟨0, 0, 0⟩ ⟨0, 0, 0⟩ ⟨0, 0, 0⟩
      ⟨0, 0, 0, 1, none, none, none⟩ ⟨10, 0, 0, 1, none, none, none⟩
      ⟨0, 10, 0, 1, none, none, none⟩ ⟨clearZ, []⟩ = ⟨clearZ, []⟩) ∧
    (renderTriangleSV (K := ℚ) (fun _ => 0) 100 100 ⟨some ShadingMode.flat, false⟩
      ⟨0, 0, 0⟩ ⟨⟨0, 0, 0⟩, ⟨0, 0, 0⟩, 0⟩ [0, 1, 2] 0 [] none mat4Identity
      ⟨0, 0, 0⟩ ⟨0, 0, 0⟩ ⟨0, 0, 0⟩
      ⟨0, 0, 0, 1, none, none, none⟩ ⟨0, 10, 0, 1, none, none, none⟩
      ⟨10, 0, 0, 1, none, none, none⟩ ⟨clearZ, []⟩ =
      shadeTriangle (fun _ => 0) 100 100 ⟨some ShadingMode.flat, false⟩
        ⟨0, 0, 0⟩ ⟨⟨0, 0, 0⟩, ⟨0, 0, 0⟩, 0⟩ [0, 1, 2] 0 [] none mat4Identity
        ⟨0, 0, 0⟩ ⟨0, 0, 0⟩ ⟨0, 0, 0⟩
        ⟨0, 0, 0, 1, none, none, none⟩ ⟨0, 10, 0, 1, none, none, none⟩
        ⟨10, 0, 0, 1, none, none, none⟩ ⟨clearZ, []⟩) := by
  constructor
  · exact (c5_backface_cull ℚ (fun _ => 0) 100 100 ⟨some ShadingMode.flat, false⟩
      ⟨0, 0, 0⟩ ⟨⟨0, 0, 0⟩, ⟨0, 0, 0⟩, 0⟩ [0, 1, 2] 0 [] none mat4Identity
      ⟨0, 0, 0⟩ ⟨0, 0, 0⟩ ⟨0, 0, 0⟩ _ _ _ ⟨clearZ, []⟩).1
      (by norm_num [snappedVerts, area2])
  · exact (c5_backface_cull ℚ (fun _ => 0) 100 100 ⟨some ShadingMode.flat, false⟩
      ⟨0, 0, 0⟩ ⟨⟨0, 0, 0⟩, ⟨0, 0, 0⟩, 0⟩ [0, 1, 2] 0 [] none mat4Identity
      ⟨0, 0, 0⟩ ⟨0, 0, 0⟩ ⟨0, 0, 0⟩ _ _ _ ⟨clearZ, []⟩).2
      (by norm_num [snappedVerts, area2])
      (by norm_num [snappedVerts, isTriangleClipped, outOfBounds])

/-! ## C6: full-offscreen rejection -/

/-- C6 (amended).  Every triangle whose three screen vertices all lie
outside the `[0, width) × [0, height)` rectangle is reported clipped by
`isTriangleClipped` and skipped by `renderTriangle` with the state
untouched (zero pixels).  The converse guarantee of the original claim —
a vertex inside plus nonzero area and front-facing winding yields at
least one pixel — is false; see the counterexample. -/
theorem c6_offscreen_reject (K : Type) [LinearOrderedField K] [FloorRing K]
    (sqrt : K → K) (width height : ℤ) (opts : RendererOptions)
    (cameraPos : Vec3 K) (light : DirectionalLight K) (idxList : List ℕ)
    (i : ℕ) (normals : List K) (uvs : Option (List K)) (modelMat : Mat4 K)
    (v0 v1 v2 : Vec3 K) (s0 s1 s2 : ScreenVertex K) (st : RState K)
    (h0 : outOfBounds s0 (width : K) (height : K) = true)
    (h1 : outOfBounds s1 (width : K) (height : K) = true)
    (h2 : outOfBounds s2 (width : K) (height : K) = true)
    (hsnap : opts.snapVertices = false) :
    isTriangleClipped s0 s1 s2 (width : K) (height : K) = true ∧
    renderTriangleSV sqrt width height opts cameraPos light idxList i
      normals uvs modelMat v0 v1 v2 s0 s1 s2 st = st := by
  have hclip : isTriangleClipped s0 s1 s2 (width : K) (height : K) = true := by
    simp [isTriangleClipped, h0, h1, h2]
  refine ⟨hclip, ?_⟩
  simp only [renderTriangleSV, snappedVerts, hsnap]
  simp [hclip]

/-- Witness for C6: on a `100 × 100` screen, a triangle with all three
screen vertices at `x = -5` (fully off-screen to the left) is clipped
and leaves the state untouched. -/
theorem c6_offscreen_reject_witness :
    isTriangleClipped (K := ℚ) ⟨-5, 10, 0, 1, none, none, none⟩
      ⟨-5, 20, 0, 1, none, none, none⟩ ⟨-5, 30, 0, 1, none, none, none⟩
      100 100 = true ∧
    renderTriangleSV (K := ℚ) (fun _ => 0) 100 100 ⟨some ShadingMode.flat, false⟩
      ⟨0, 0, 0⟩ ⟨⟨0, 0, 0⟩, ⟨0, 0, 0⟩, 0⟩ [0, 1, 2] 0 [] none mat4Identity
      ⟨0, 0, 0⟩ ⟨0, 0, 0⟩ ⟨0, 0, 0⟩
      ⟨-5, 10, 0, 1, none, none, none⟩ ⟨-5, 20, 0, 1, none, none, none⟩
      ⟨-5, 30, 0, 1, none, none, none⟩ ⟨clearZ, []⟩ = ⟨clearZ, []⟩ :=
  c6_offscreen_reject ℚ (fun _ => 0) 100 100 ⟨some ShadingMode.flat, false⟩
    ⟨0, 0, 0⟩ ⟨⟨0, 0, 0⟩, ⟨0, 0, 0⟩, 0⟩ [0, 1, 2] 0 [] none mat4Identity
    ⟨0, 0, 0⟩ ⟨0, 0, 0⟩ ⟨0, 0, 0⟩ _ _ _ ⟨clearZ, []⟩
    (by norm_num [outOfBounds]) (by norm_num [outOfBounds])
    (by norm_num [outOfBounds]) rfl

set_option maxRecDepth 8000 in
unseal Rat.mul Rat.add Rat.sub Rat.inv in
/-- Counterexample for the second half of C6: on a `100 × 100` screen the
sliver triangle with screen vertices `(10, 1/5)`, `(15, 4/5)`, `(20, 1/5)`
has all vertices inside the screen rectangle (in particular `(15, 4/5)`),
nonzero area (`area2 = -6`, front-facing, so it is neither clipped nor
culled), yet rasterization produces zero pixels: its vertical extent
`(1/5, 4/5)` contains no integer scanline, so the row loop is empty. -/
theorem c6_inside_vertex_counterexample :
    outOfBounds (K := ℚ) ⟨15, 4/5, 1/2, 1, none, none, none⟩ 100 100 = false ∧
    area2 (K := ℚ) ⟨10, 1/5, 1/2, 1, none, none, none⟩
      ⟨15, 4/5, 1/2, 1, none, none, none⟩
      ⟨20, 1/5, 1/2, 1, none, none, none⟩ = -6 ∧
    (renderTriangleSV (K := ℚ) (fun _ => 0) 100 100 ⟨some ShadingMode.flat, false⟩
      ⟨0, 0, 0⟩ ⟨⟨0, 0, 0⟩, ⟨0, 0, 0⟩, 0⟩ [0, 1, 2] 0 [] none mat4Identity
      ⟨0, 0, 0⟩ ⟨0, 0, 0⟩ ⟨0, 0, 0⟩
      ⟨10, 1/5, 1/2, 1, none, none, none⟩ ⟨15, 4/5, 1/2, 1, none, none, none⟩
      ⟨20, 1/5, 1/2, 1, none, none, none⟩ ⟨clearZ, []⟩).writes = [] := by
  refine ⟨by decide, by decide, by decide⟩

/-! ## C7: degenerate triangles and spans -/

/-- `intRange a b` is empty when `b < a`. -/
theorem intRange_eq_nil {a b : ℤ} (h : b < a) : intRange a b = [] := by
  unfold intRange
  rw [show (b - a + 1).toNat = 0 from by omega]
  rfl

/-- C7 (amended).  A zero-height triangle whose common screen y is not an
integer produces no pixels — the clamped vertical extent is empty (first
conjunct); a scanline whose two x-intersections coincide at a non-integer
value produces no pixels on that row (second conjunct).  (Both functions
are total in the embedding, so no error is raised in any case.)  When the
degenerate coordinate is exactly an integer in range, the source instead
emits one row, resp. one pixel; see the counterexample. -/
theorem c7_degenerate_empty (K : Type) [LinearOrderedField K] [FloorRing K] :
    (∀ (width height : ℤ) (st : RState K) (v0 v1 v2 : ScreenVertex K)
       (color : Vec3 K),
      v0.y = v1.y → v0.y = v2.y → ⌊v0.y⌋ < ⌈v0.y⌉ →
      drawTriangleScanline width height st v0 v1 v2 color = st) ∧
    (∀ (width height : ℤ) (a b c : ScreenVertex K) (color : Vec3 K)
       (st : RState K) (y : ℤ),
      interpolateEdge a c (y : K) =
        (if (y : K) < b.y then interpolateEdge a b (y : K)
         else interpolateEdge b c (y : K)) →
      ⌊interpolateEdge a c (y : K)⌋ < ⌈interpolateEdge a c (y : K)⌉ →
      scanRow width height a b c color st y = st) := by
  constructor
  · intro width height st v0 v1 v2 color h01 h02 hfrac
    have hempty : ∀ u : K, u = v0.y →
        intRange (max 0 ⌈u⌉) (min (height - 1) ⌊u⌋) = [] := by
      intro u hu
      subst hu
      exact intRange_eq_nil (lt_of_le_of_lt (min_le_right _ _)
        (lt_of_lt_of_le hfrac (le_max_right _ _)))
    unfold drawTriangleScanline sort3
    split_ifs <;>
      simp only [← h01, ← h02, min_self, max_self] <;>
        rw [hempty _ rfl] <;> rfl
  · intro width height a b c color st y hx hfrac
    simp only [scanRow]
    rw [← hx]
    rw [if_neg (lt_irrefl _)]
    rw [intRange_eq_nil (lt_of_le_of_lt (min_le_right _ _)
      (lt_of_lt_of_le hfrac (le_max_right _ _)))]
    rfl

set_option maxRecDepth 4000 in
unseal Rat.mul Rat.add Rat.sub Rat.inv in
/-- Witness for C7: a zero-height triangle at `y = 1/2` writes nothing,
and a coincident span at `x = 11/2` (both edge intersections `11/2` on
row 3) writes nothing. -/
theorem c7_degenerate_empty_witness :
    drawTriangleScanline (K := ℚ) 100 100 ⟨clearZ, []⟩
      ⟨0, 1/2, 0, 1, none, none, none⟩ ⟨10, 1/2, 0, 1, none, none, none⟩
      ⟨3, 1/2, 0, 1, none, none, none⟩ ⟨200, 120, 60⟩ = ⟨clearZ, []⟩ ∧
    scanRow (K := ℚ) 100 100 ⟨11/2, 0, 0, 1, none, none, none⟩
      ⟨11/2, 5, 0, 1, none, none, none⟩ ⟨11/2, 10, 0, 1, none, none, none⟩
      ⟨200, 120, 60⟩ ⟨clearZ, []⟩ 3 = ⟨clearZ, []⟩ := by
  constructor
  · exact (c7_degenerate_empty ℚ).1 100 100 ⟨clearZ, []⟩ _ _ _ ⟨200, 120, 60⟩
      rfl rfl (by decide)
  · exact (c7_degenerate_empty ℚ).2 100 100 _ _ _ ⟨200, 120, 60⟩ ⟨clearZ, []⟩ 3
      (by decide) (by decide)

set_option maxRecDepth 8000 in
unseal Rat.mul Rat.add Rat.sub Rat.inv in
/-- Counterexample for C7 as stated: the zero-height triangle with all
three vertices on the integer scanline `y = 5` (vertices `(0,5)`,
`(10,5)`, `(3,5)`) makes `drawTriangleScanline` emit an 11-pixel row,
and the zero-width span at integer `x = 5` on row 3 (all three vertices
at `x = 5`) makes `scanRow` emit one pixel — not zero pixels. -/
theorem c7_degenerate_counterexample :
    (drawTriangleScanline (K := ℚ) 100 100 ⟨clearZ, []⟩
      ⟨0, 5, 1/2, 1, none, none, none⟩ ⟨10, 5, 1/2, 1, none, none, none⟩
      ⟨3, 5, 1/2, 1, none, none, none⟩ ⟨200, 120, 60⟩).writes.length = 11 ∧
    (scanRow (K := ℚ) 100 100 ⟨5, 0, 0, 1, none, none, none⟩
      ⟨5, 5, 0, 1, none, none, none⟩ ⟨5, 10, 0, 1, none, none, none⟩
      ⟨200, 120, 60⟩ ⟨clearZ, []⟩ 3).writes =
      [⟨5, 3, 200, 120, 60, 255⟩] := by
  refine ⟨by decide, by decide⟩

/-! ## C2: per-vertex colours are not interpolated -/

/-- Every write appended by a `foldl` whose step appends only writes
satisfying `C` either was already present or satisfies `C`. -/
theorem foldl_writes_preserved {K : Type} [LinearOrderedField K]
    {α : Type} (f : RState K → α → RState K) (C : PixelWrite → Prop)
    (hf : ∀ s x p, p ∈ (f s x).writes → p ∈ s.writes ∨ C p) :
    ∀ (l : List α) (s : RState K) (p : PixelWrite),
      p ∈ (l.foldl f s).writes → p ∈ s.writes ∨ C p := by
  intro l
  induction l with
  | nil => intro s p hp; exact Or.inl hp
  | cons x xs ih =>
      intro s p hp
      rcases ih (f s x) p hp with h | h
      · exact hf s x p h
      · exact Or.inr h

/-- Every pixel write emitted by `drawTriangleScanline` beyond the ones
already in the incoming state carries exactly the supplied `color`
argument (truncated by the `| 0` of `setPixel`) — the `color` fields of
the three `ScreenVertex` arguments are never consulted. -/
theorem drawTriangleScanline_writes_color {K : Type} [LinearOrderedField K]
    [FloorRing K] (width height : ℤ) (st : RState K)
    (v0 v1 v2 : ScreenVertex K) (color : Vec3 K) (p : PixelWrite)
    (hp : p ∈ (drawTriangleScanline width height st v0 v1 v2 color).writes) :
    p ∈ st.writes ∨
      (p.r = jsToInt32 color.x ∧ p.g = jsToInt32 color.y ∧
       p.b = jsToInt32 color.z) := by
  have hpix : ∀ (a c : ScreenVertex K) (y : ℤ) (x1 x2 : K)
      (s : RState K) (x : ℤ) (q : PixelWrite),
      q ∈ (scanPixel width height a c color y x1 x2 s x).writes →
      q ∈ s.writes ∨
        (q.r = jsToInt32 color.x ∧ q.g = jsToInt32 color.y ∧
         q.b = jsToInt32 color.z) := by
    intro a c y x1 x2 s x q hq
    simp only [scanPixel, setPixel] at hq
    split_ifs at hq <;>
      first
      | exact Or.inl hq
      | · simp only [List.mem_append, List.mem_singleton] at hq
          rcases hq with h | h
          · exact Or.inl h
          · subst h
            exact Or.inr ⟨rfl, rfl, rfl⟩
  have hrow : ∀ (a b c : ScreenVertex K) (s : RState K) (y : ℤ)
      (q : PixelWrite),
      q ∈ (scanRow width height a b c color s y).writes →
      q ∈ s.writes ∨
        (q.r = jsToInt32 color.x ∧ q.g = jsToInt32 color.y ∧
         q.b = jsToInt32 color.z) := by
    intro a b c s y q hq
    simp only [scanRow] at hq
    exact foldl_writes_preserved _ _ (fun s' x' q' h' => hpix _ _ _ _ _ s' x' q' h')
      _ s q hq
  simp only [drawTriangleScanline] at hp
  exact foldl_writes_preserved _ _
    (fun s' y' q' h' => hrow _ _ _ s' y' q' h') _ st p hp

/-- C2 (amended).  In `drawTriangleScanline` the written pixel colour is
always the supplied flat fallback colour — the per-vertex `color` fields
are never read (first conjunct) — and in particular every pixel emitted
through `renderBlinnPhongShading`, which attaches per-vertex Blinn-Phong
colours to the three `ScreenVertex` records and then invokes the
scanline fill with its default colour argument, is written with the
fixed fallback `(200, 120, 60)`, not with any interpolation of the
attached vertex colours (second conjunct). -/
theorem c2_fallback_color_only (K : Type) [LinearOrderedField K]
    [FloorRing K] :
    (∀ (width height : ℤ) (st : RState K) (v0 v1 v2 : ScreenVertex K)
       (color : Vec3 K) (p : PixelWrite),
      p ∈ (drawTriangleScanline width height st v0 v1 v2 color).writes →
      p ∈ st.writes ∨
        (p.r = jsToInt32 color.x ∧ p.g = jsToInt32 color.y ∧
         p.b = jsToInt32 color.z)) ∧
    (∀ (sqrt : K → K) (width height : ℤ) (cameraPos : Vec3 K)
       (light : DirectionalLight K) (st : RState K)
       (sv0 sv1 sv2 : ScreenVertex K) (v0 v1 v2 : Vec3 K)
       (normals : List K) (p : PixelWrite),
      p ∈ (renderBlinnPhongShading sqrt width height cameraPos light st
            sv0 sv1 sv2 v0 v1 v2 normals).writes →
      p ∈ st.writes ∨ (p.r = 200 ∧ p.g = 120 ∧ p.b = 60)) := by
  have h200 : jsToInt32 (200 : K) = 200 := by
    rw [jsToInt32, jsTrunc, if_pos (by norm_num : (0:K) ≤ 200),
      show (200 : K) = ((200 : ℤ) : K) from by norm_cast, Int.floor_intCast]
    decide
  have h120 : jsToInt32 (120 : K) = 120 := by
    rw [jsToInt32, jsTrunc, if_pos (by norm_num : (0:K) ≤ 120),
      show (120 : K) = ((120 : ℤ) : K) from by norm_cast, Int.floor_intCast]
    decide
  have h60 : jsToInt32 (60 : K) = 60 := by
    rw [jsToInt32, jsTrunc, if_pos (by norm_num : (0:K) ≤ 60),
      show (60 : K) = ((60 : ℤ) : K) from by norm_cast, Int.floor_intCast]
    decide
  constructor
  · intro width height st v0 v1 v2 color p hp
    exact drawTriangleScanline_writes_color width height st v0 v1 v2 color p hp
  · intro sqrt width height cameraPos light st sv0 sv1 sv2 v0 v1 v2 normals p hp
    simp only [renderBlinnPhongShading] at hp
    rcases drawTriangleScanline_writes_color width height st _ _ _
      ⟨200, 120, 60⟩ p hp with h | h
    · exact Or.inl h
    · refine Or.inr ⟨?_, ?_, ?_⟩
      · rw [h.1]; exact h200
      · rw [h.2.1]; exact h120
      · rw [h.2.2]; exact h60

set_option maxRecDepth 8000 in
unseal Rat.mul Rat.add Rat.sub Rat.inv in
/-- Counterexample for C2 as stated: with zero camera position, zero
mesh normals and light direction `(0, 0, 0)` (all `vnorm` arguments
along this run are the zero vector, where `Math.hypot` returns `0`, so
the constant-zero square root agrees with the real one), Blinn-Phong
lighting attaches the colour `(30, 18, 9)` to all three vertices; any
interpolation of three equal colours is that colour, yet every pixel of
the covered triangle `(0,0), (0,2), (2,0)` is written with the fallback
`(200, 120, 60)`. -/
theorem c2_vertex_colors_ignored_counterexample :
    computeBlinnPhongLighting (K := ℚ) (fun _ => 0) ⟨0, 0, 0⟩ ⟨0, 0, 0⟩
      ⟨0, 0, 0⟩ ⟨⟨0, 0, 0⟩, ⟨1, 1, 1⟩, 6/10⟩ = ⟨30, 18, 9⟩ ∧
    (renderBlinnPhongShading (K := ℚ) (fun _ => 0) 100 100 ⟨0, 0, 0⟩
      ⟨⟨0, 0, 0⟩, ⟨1, 1, 1⟩, 6/10⟩ ⟨clearZ, []⟩
      ⟨0, 0, 1/2, 1, none, none, none⟩ ⟨0, 2, 1/2, 1, none, none, none⟩
      ⟨2, 0, 1/2, 1, none, none, none⟩ ⟨0, 0, 0⟩ ⟨0, 0, 0⟩ ⟨0, 0, 0⟩
      [0, 0, 0, 0, 0, 0, 0, 0, 0]).writes =
      [⟨0, 0, 200, 120, 60, 255⟩, ⟨1, 0, 200, 120, 60, 255⟩,
       ⟨2, 0, 200, 120, 60, 255⟩, ⟨0, 1, 200, 120, 60, 255⟩,
       ⟨1, 1, 200, 120, 60, 255⟩, ⟨0, 2, 200, 120, 60, 255⟩] :=
  ⟨by decide, by decide⟩

set_option maxRecDepth 8000 in
unseal Rat.mul Rat.add Rat.sub Rat.inv in
/-- Witness for C2: the first pixel of the counterexample run carries
the fallback colour, as the amended theorem dictates. -/
theorem c2_fallback_color_only_witness :
    (⟨0, 0, 200, 120, 60, 255⟩ : PixelWrite) ∈
      ([] : List PixelWrite) ∨
      ((⟨0, 0, 200, 120, 60, 255⟩ : PixelWrite).r = 200 ∧
       (⟨0, 0, 200, 120, 60, 255⟩ : PixelWrite).g = 120 ∧
       (⟨0, 0, 200, 120, 60, 255⟩ : PixelWrite).b = 60) :=
  (c2_fallback_color_only ℚ).2 (fun _ => 0) 100 100 ⟨0, 0, 0⟩
    ⟨⟨0, 0, 0⟩, ⟨1, 1, 1⟩, 6/10⟩ ⟨clearZ, []⟩
    ⟨0, 0, 1/2, 1, none, none, none⟩ ⟨0, 2, 1/2, 1, none, none, none⟩
    ⟨2, 0, 1/2, 1, none, none, none⟩ ⟨0, 0, 0⟩ ⟨0, 0, 0⟩ ⟨0, 0, 0⟩
    [0, 0, 0, 0, 0, 0, 0, 0, 0] ⟨0, 0, 200, 120, 60, 255⟩ (by decide)

/-! ## C3: snapping happens before clip/cull -/

/-- C3 (amended).  When `snapVertices` is enabled, `renderTriangle`
snaps the projected screen vertices *before* the full-offscreen and
back-face tests: the run is exactly the run of the snap-disabled
pipeline on the pre-snapped vertices, so the clip/cull decisions are
evaluated on post-snap geometry (and can differ from the decisions on
the pre-snap geometry; see the counterexample). -/
theorem c3_snap_applied_before_cull (K : Type) [LinearOrderedField K]
    [FloorRing K] (sqrt : K → K) (width height : ℤ)
    (sh : Option ShadingMode) (cameraPos : Vec3 K)
    (light : DirectionalLight K) (idxList : List ℕ) (i : ℕ)
    (normals : List K) (uvs : Option (List K)) (modelMat : Mat4 K)
    (v0 v1 v2 : Vec3 K) (s0 s1 s2 : ScreenVertex K) (st : RState K) :
    renderTriangleSV sqrt width height ⟨sh, true⟩ cameraPos light idxList i
      normals uvs modelMat v0 v1 v2 s0 s1 s2 st =
    renderTriangleSV sqrt width height ⟨sh, false⟩ cameraPos light idxList i
      normals uvs modelMat v0 v1 v2 (snapVertexToGrid s0 5)
      (snapVertexToGrid s1 5) (snapVertexToGrid s2 5) st := by
  cases sh with
  | none => rfl
  | some m => cases m <;> rfl

set_option maxRecDepth 8000 in
unseal Rat.mul Rat.add Rat.sub Rat.inv in
/-- Counterexample for C3 as stated: under the identity MVP on a
`100 × 100` screen, the triangle with model positions `(-26/25, 4/5, 0)`,
`(-26/25, 3/5, 0)`, `(-26/25, 2/5, 0)` projects to the screen vertices
`(-2, 10)`, `(-2, 20)`, `(-2, 30)` — fully off-screen, so with snapping
disabled the clip test rejects it and nothing is drawn.  With snapping
enabled, `Math.round(-2/5) = 0` moves all three vertices to `x = 0`
before the clip test, the triangle is no longer rejected, and 21 pixels
are written: the clip/cull outcome differs between the two modes. -/
theorem c3_snap_changes_cull_counterexample :
    transformTriangleToScreen (K := ℚ) ⟨-26/25, 4/5, 0⟩ ⟨-26/25, 3/5, 0⟩
      ⟨-26/25, 2/5, 0⟩ mat4Identity 100 100 =
      some (⟨-2, 10, 1/2, 1, none, none, none⟩,
            ⟨-2, 20, 1/2, 1, none, none, none⟩,
            ⟨-2, 30, 1/2, 1, none, none, none⟩) ∧
    isTriangleClipped (K := ℚ) ⟨-2, 10, 1/2, 1, none, none, none⟩
      ⟨-2, 20, 1/2, 1, none, none, none⟩ ⟨-2, 30, 1/2, 1, none, none, none⟩
      100 100 = true ∧
    (renderTriangle (K := ℚ) (fun _ => 0) 100 100 ⟨some ShadingMode.flat, false⟩
      ⟨0, 0, 0⟩ ⟨⟨0, 0, 0⟩, ⟨0, 0, 0⟩, 0⟩ [0, 1, 2] 0
      [-26/25, 4/5, 0, -26/25, 3/5, 0, -26/25, 2/5, 0] [] none
      mat4Identity mat4Identity ⟨clearZ, []⟩).writes = [] ∧
    (renderTriangle (K := ℚ) (fun _ => 0) 100 100 ⟨some ShadingMode.flat, true⟩
      ⟨0, 0, 0⟩ ⟨⟨0, 0, 0⟩, ⟨0, 0, 0⟩, 0⟩ [0, 1, 2] 0
      [-26/25, 4/5, 0, -26/25, 3/5, 0, -26/25, 2/5, 0] [] none
      mat4Identity mat4Identity ⟨clearZ, []⟩).writes.length = 21 :=
  ⟨by decide, by decide, by decide, by decide⟩

end Claims



end SoftJS
